import Mathlib

set_option maxRecDepth 100000

/-!
Shallow embedding of the parameterized analytical query runner extracted from
the SDC-metrics-2019 notebooks (`T231952-part-1.ipynb` and
`sdc_usage_through_lua.ipynb`): the query template strings, Python-style
placeholder substitution as performed by the notebooks' calls to `str.format`,
the batch backend protocol used by `hive.run`, the recorded query results, and
the inclusion-exclusion arithmetic over the recorded counts.
-/

/-- Scalar cell values of a tabular query result (integer, string, or null). -/
inductive Value where
  | int (i : Int)
  | str (s : String)
  | null
deriving DecidableEq

/-- Tabular result of a query: ordered column names and rows, each row a
mapping from column name to scalar value. -/
structure QueryResult where
  columns : List String
  rows : List (List (String × Value))
deriving DecidableEq

/-- Errors raised while binding parameters into a template. Python's
`str.format` raises `KeyError` for a missing key (the spec names this
`MissingParameterError`) and `ValueError` for a malformed replacement field. -/
inductive BindError where
  | missingParameter (name : String)
  | malformedPlaceholder
deriving DecidableEq

/-- Modelled from the spec: the single error of the `SetArithmeticAggregator`
(spec section 4.2), raised when the inclusion-exclusion result is negative. -/
inductive OverlapError where
  | invalidOverlap
deriving DecidableEq

/-- Modelled from the spec: the backend error taxonomy of spec section 7
(`BackendUnavailableError`, `QueryExecutionError` wrapping the backend's
native message). -/
inductive BackendError where
  | backendUnavailable
  | queryExecution (message : String)
deriving DecidableEq

/-- Modelled from the spec: `pairwise_overlap(count_a, count_b, count_union)`
of the `SetArithmeticAggregator` (spec section 4.2). The source computes the
same expression inline on the recorded counts:
`nonenglish_caption_filecount['num_pages'] + english_caption_filecount['num_pages']
- all_caption_filecount['num_pages']`; the negativity check is the spec's
`InvalidOverlapError` clause. -/
def pairwise_overlap (a b u : Int) : Except OverlapError Int :=
  if a + b - u < 0 then .error .invalidOverlap else .ok (a + b - u)

/-- The `claim_query` template of `T231952-part-1.ipynb` (runtime value of the
Python triple-quoted string), with placeholders `{snapshot}`, `{start_date}`,
`{end_date}`. -/
def claim_query : String :=
  "\nSELECT claim_action, claim_subaction, count(*) AS num_actions\nFROM (\n    SELECT\n        regexp_extract(event_comment, \"^...(wb[^-]+)\", 1) AS claim_action,\n        regexp_extract(event_comment, \"^...wb[^-]+-([^:]+):\", 1) AS claim_subaction\n    FROM wmf.mediawiki_history\n    WHERE snapshot = \"{snapshot}\"\n    AND wiki_db = \"commonswiki\"\n    AND event_entity = \"revision\"\n    AND event_type = \"create\"\n    AND event_timestamp >= \"{start_date}\"\n    AND event_timestamp < \"{end_date}\"\n    AND page_is_deleted = false -- only count live pages\n    AND page_namespace = 6 -- only count files\n    AND event_comment REGEXP \"^...(wb[^-]+)-([^:]+):\"\n) AS ce\nGROUP BY claim_action, claim_subaction\n"

/-- The `template_count_query` template of `sdc_usage_through_lua.ipynb`
(runtime value), with placeholder `{template_title}`. -/
def template_count_query : String :=
  "\nSELECT count(DISTINCT tl_from) AS num_files\nFROM templatelinks\nWHERE tl_namespace = 10 -- template\nAND tl_title = \"{template_title}\"\nAND tl_from_namespace = 6 -- only files\n"

/-- The `nonenglish_caption_count_query` template of `T231952-part-1.ipynb`
(runtime value). -/
def nonenglish_caption_count_query : String :=
  "\nSELECT COUNT(DISTINCT page_id) AS num_pages\nFROM wmf.mediawiki_history\nWHERE snapshot = \"{snapshot}\"\nAND wiki_db = \"commonswiki\"\nAND event_entity = \"revision\"\nAND event_type = \"create\"\nAND event_timestamp >= \"{start_date}\"\nAND event_timestamp < \"{end_date}\"\nAND page_is_deleted = false -- only count live pages\nAND page_namespace = 6 -- only count files\nAND event_comment REGEXP \"^...wbsetlabel-add:\"\nAND regexp_extract(event_comment, \"^...wbsetlabel-add:\\d.(\\w+(-\\w+)?)\", 1)\n    NOT REGEXP \"^simple|en|(en-.+)$\" -- not Simple English, nor English, nor any variant of English\n"

/-- The `english_caption_count_query` template of `T231952-part-1.ipynb`
(runtime value). -/
def english_caption_count_query : String :=
  "\nSELECT COUNT(DISTINCT page_id) AS num_pages\nFROM wmf.mediawiki_history\nWHERE snapshot = \"{snapshot}\"\nAND wiki_db = \"commonswiki\"\nAND event_entity = \"revision\"\nAND event_type = \"create\"\nAND event_timestamp >= \"{start_date}\"\nAND event_timestamp < \"{end_date}\"\nAND page_is_deleted = false -- only count live pages\nAND page_namespace = 6 -- only count files\nAND event_comment REGEXP \"^...wbsetlabel-add\"\nAND regexp_extract(event_comment, \"^...wbsetlabel-add:\\d.(\\w+(-\\w+)?)\", 1)\n    REGEXP \"^simple|en|(en-.+)$\" -- Simple English, English, or any variant of English\n"

/-- The `all_caption_count_query` template of `T231952-part-1.ipynb`
(runtime value). -/
def all_caption_count_query : String :=
  "\nSELECT COUNT(DISTINCT page_id) AS num_pages\nFROM wmf.mediawiki_history\nWHERE snapshot = \"{snapshot}\"\nAND wiki_db = \"commonswiki\"\nAND event_entity = \"revision\"\nAND event_type = \"create\"\nAND event_timestamp >= \"{start_date}\"\nAND event_timestamp < \"{end_date}\"\nAND page_is_deleted = false -- only count live pages\nAND page_namespace = 6 -- only count files\nAND event_comment REGEXP \"^...wbsetlabel-add\"\n"

/-- The base filter block shared verbatim by the three caption count queries:
snapshot, wiki, event entity and type, date range, page-deletion and namespace
predicates. -/
def captionCountBaseFilters : String :=
  "\nSELECT COUNT(DISTINCT page_id) AS num_pages\nFROM wmf.mediawiki_history\nWHERE snapshot = \"{snapshot}\"\nAND wiki_db = \"commonswiki\"\nAND event_entity = \"revision\"\nAND event_type = \"create\"\nAND event_timestamp >= \"{start_date}\"\nAND event_timestamp < \"{end_date}\"\nAND page_is_deleted = false -- only count live pages\nAND page_namespace = 6 -- only count files\n"

/-- The event-comment predicate of the non-English caption query: anchored
with a trailing colon. -/
def labelAddCommentFilterColon : String :=
  "AND event_comment REGEXP \"^...wbsetlabel-add:\"\n"

/-- The event-comment predicate of the English and all-captions queries:
no trailing colon. -/
def labelAddCommentFilterPlain : String :=
  "AND event_comment REGEXP \"^...wbsetlabel-add\"\n"

/-- The language predicate of the non-English caption query. -/
def nonenglishLanguageFilter : String :=
  "AND regexp_extract(event_comment, \"^...wbsetlabel-add:\\d.(\\w+(-\\w+)?)\", 1)\n    NOT REGEXP \"^simple|en|(en-.+)$\" -- not Simple English, nor English, nor any variant of English\n"

/-- The language predicate of the English caption query. -/
def englishLanguageFilter : String :=
  "AND regexp_extract(event_comment, \"^...wbsetlabel-add:\\d.(\\w+(-\\w+)?)\", 1)\n    REGEXP \"^simple|en|(en-.+)$\" -- Simple English, English, or any variant of English\n"

/-- Splits a character list into lines at newline characters. -/
def splitLinesAux (cur : List Char) : List Char → List (List Char)
  | [] => [cur.reverse]
  | c :: rest =>
    if c = '\n' then cur.reverse :: splitLinesAux [] rest
    else splitLinesAux (c :: cur) rest

/-- The lines of a string. -/
def linesOf (s : String) : List String :=
  (splitLinesAux [] s.data).map String.mk

/-- Boolean list-prefix test on character lists. -/
def startsWithChars : List Char → List Char → Bool
  | [], _ => true
  | _ :: _, [] => false
  | a :: as, b :: bs => a == b && startsWithChars as bs

/-- The lines of a query that state its event-comment predicate. -/
def eventCommentClauses (q : String) : List String :=
  (linesOf q).filter (fun l => startsWithChars "AND event_comment REGEXP ".data l.data)

/-- Recorded output of running the bound `nonenglish_caption_count_query`
(notebook execution count 83): one row, `num_pages = 731900`. -/
def nonenglish_caption_filecount : QueryResult :=
  ⟨["num_pages"], [[("num_pages", Value.int 731900)]]⟩

/-- Recorded output of running the bound `english_caption_count_query`
(notebook execution count 86): one row, `num_pages = 776401`. -/
def english_caption_filecount : QueryResult :=
  ⟨["num_pages"], [[("num_pages", Value.int 776401)]]⟩

/-- Recorded output of running the bound `all_caption_count_query`
(notebook execution count 89): one row, `num_pages = 1365092`. -/
def all_caption_filecount : QueryResult :=
  ⟨["num_pages"], [[("num_pages", Value.int 1365092)]]⟩

/-- The values of one named column of a result, in row order (the notebooks'
`frame['num_pages']` series extraction). -/
def columnValues (qr : QueryResult) (c : String) : List Value :=
  qr.rows.map (fun r => (List.lookup c r).getD Value.null)

/-- Elementwise addition of scalar cell values (integer cells add; anything
else is null, as pandas propagates missing data). -/
def valueAdd : Value → Value → Value
  | .int a, .int b => .int (a + b)
  | _, _ => .null

/-- Elementwise subtraction of scalar cell values. -/
def valueSub : Value → Value → Value
  | .int a, .int b => .int (a - b)
  | _, _ => .null

/-- The notebook's inclusion-exclusion cell, verbatim over result frames:
`nonenglish_caption_filecount['num_pages'] + english_caption_filecount['num_pages']
- all_caption_filecount['num_pages']` — an elementwise series computation that
is total and returns an (possibly empty) series. -/
def overlapSeries (a b u : QueryResult) : List Value :=
  List.zipWith valueSub
    (List.zipWith valueAdd (columnValues a "num_pages") (columnValues b "num_pages"))
    (columnValues u "num_pages")

/-- A scalar-count result with the `num_pages` column but zero rows. -/
def emptyNumPagesResult : QueryResult :=
  ⟨["num_pages"], []⟩

/-- A result is well formed when every row's keys are exactly the declared
columns in order. -/
def wellFormedResult (qr : QueryResult) : Bool :=
  qr.rows.all (fun r => r.map Prod.fst == qr.columns)

/-- Modelled from the spec: `run(bound_query, pre_statements)` against the
batch backend (spec sections 4.1 and 6) — the pre-statements are executed in
order purely for their state effect (results discarded), then the main query
is executed. The backend is a state-passing execution function. -/
def runBatch {σ : Type} (exec : σ → String → σ × QueryResult) :
    σ → List String → String → σ × QueryResult
  | s, [], main => exec s main
  | s, p :: pres, main => runBatch exec (exec s p).1 pres main

/-- Modelled from the spec: `BatchStore.execute(statements)` as called by the
notebooks' `hive.run([...])` — executes each statement of a nonempty list in
order and returns the result of the last one (`none` on an empty list). -/
def execAll {σ : Type} (exec : σ → String → σ × QueryResult) :
    σ → List String → Option (σ × QueryResult)
  | _, [] => none
  | s, stmt :: rest =>
    match rest with
    | [] => some (exec s stmt)
    | _ :: _ => execAll exec (exec s stmt).1 rest

/-- Parameter lookup in a binding map (first match wins, as in a Python dict
built from distinct keys). -/
def lookupParam (ps : List (String × String)) (n : String) : Option String :=
  List.lookup n ps

/-- State of the left-to-right template scan: ordinary text, or inside a
replacement field accumulating the (reversed) field name. -/
inductive ScanMode where
  | text
  | field (acc : List Char)

/-- Python `str.format` restricted to the simple `{name}` replacement fields
used by every template in this repository: a single left-to-right pass that
copies text, treats doubled braces as escaped literals, and splices the looked
up parameter value verbatim in place of each field; a missing parameter is
`KeyError` (here `BindError.missingParameter`), an unterminated or nested
brace is `ValueError` (here `BindError.malformedPlaceholder`). -/
def runSubst (ps : List (String × String)) : ScanMode → List Char → Except BindError (List Char)
  | .text, [] => .ok []
  | .field _, [] => .error .malformedPlaceholder
  | .text, '{' :: '{' :: rest => Except.map (fun t => '{' :: t) (runSubst ps .text rest)
  | .text, '{' :: rest => runSubst ps (.field []) rest
  | .text, '}' :: '}' :: rest => Except.map (fun t => '}' :: t) (runSubst ps .text rest)
  | .text, '}' :: _ => .error .malformedPlaceholder
  | .text, c :: rest => Except.map (fun t => c :: t) (runSubst ps .text rest)
  | .field acc, '}' :: rest =>
    match lookupParam ps (String.mk acc.reverse) with
    | none => .error (.missingParameter (String.mk acc.reverse))
    | some v => Except.map (fun t => v.data ++ t) (runSubst ps .text rest)
  | .field _, '{' :: _ => .error .malformedPlaceholder
  | .field acc, c :: rest => runSubst ps (.field (c :: acc)) rest

/-- The placeholder names referenced by a template scan, in text order. -/
def scanHoles : ScanMode → List Char → List String
  | .text, [] => []
  | .field _, [] => []
  | .text, '{' :: '{' :: rest => scanHoles .text rest
  | .text, '{' :: rest => scanHoles (.field []) rest
  | .text, '}' :: '}' :: rest => scanHoles .text rest
  | .text, '}' :: _ => []
  | .text, _ :: rest => scanHoles .text rest
  | .field acc, '}' :: rest => String.mk acc.reverse :: scanHoles .text rest
  | .field _, '{' :: _ => []
  | .field acc, c :: rest => scanHoles (.field (c :: acc)) rest

/-- Whether a template scan is free of malformed replacement fields. -/
def scanOK : ScanMode → List Char → Bool
  | .text, [] => true
  | .field _, [] => false
  | .text, '{' :: '{' :: rest => scanOK .text rest
  | .text, '{' :: rest => scanOK (.field []) rest
  | .text, '}' :: '}' :: rest => scanOK .text rest
  | .text, '}' :: _ => false
  | .text, _ :: rest => scanOK .text rest
  | .field _, '}' :: rest => scanOK .text rest
  | .field _, '{' :: _ => false
  | .field acc, c :: rest => scanOK (.field (c :: acc)) rest

/-- String-level template binding: the notebooks' `template.format(params)`. -/
def pyFormat (tpl : String) (ps : List (String × String)) : Except BindError String :=
  Except.map String.mk (runSubst ps ScanMode.text tpl.data)

/-- The placeholder names referenced by a template. -/
def placeholders (tpl : String) : List String :=
  scanHoles ScanMode.text tpl.data

/-- Whether a template has only well-delimited replacement fields. -/
def wellFormedTemplate (tpl : String) : Bool :=
  scanOK ScanMode.text tpl.data

/-- Character lists containing no brace characters. -/
def braceFree (l : List Char) : Bool :=
  l.all (fun c => !(c == '{') && !(c == '}'))

/-- The configuration parameters of `T231952-part-1.ipynb`
(`wmf_snapshot = '2019-11'`, `start_date = '2019-01-01'`,
`end_date = '2019-12-01'`). -/
def claimParams : List (String × String) :=
  [("snapshot", "2019-11"), ("start_date", "2019-01-01"), ("end_date", "2019-12-01")]

/-- The same configuration with `end_date` omitted. -/
def partialClaimParams : List (String × String) :=
  [("snapshot", "2019-11"), ("start_date", "2019-01-01")]

/-- The bound text of `template_count_query` with
`template_title = "Information"`. -/
def informationBoundSql : String :=
  "\nSELECT count(DISTINCT tl_from) AS num_files\nFROM templatelinks\nWHERE tl_namespace = 10 -- template\nAND tl_title = \"Information\"\nAND tl_from_namespace = 6 -- only files\n"

/-- Recorded output of `mariadb.run(template_count_query.format(template_title
= 'Information'), 'commonswiki')` in `sdc_usage_through_lua.ipynb` (execution
count 10): one row, one column named `count(DISTINCT tl_from)` with value
51836906. -/
def informationTemplateCountRecorded : QueryResult :=
  ⟨["count(DISTINCT tl_from)"], [[("count(DISTINCT tl_from)", Value.int 51836906)]]⟩

/-- The row-store backend fixture fixed to the run recorded in the source:
answers exactly the bound Information template-count query on `commonswiki`. -/
def mariadbFixture (sql db : String) : Option QueryResult :=
  if sql = informationBoundSql ∧ db = "commonswiki" then
    some informationTemplateCountRecorded
  else none

theorem execAll_append_last {σ : Type} (exec : σ → String → σ × QueryResult)
    (main : String) :
    ∀ (pres : List String) (s : σ),
      execAll exec s (pres ++ [main]) = some (runBatch exec s pres main) := by
  intro pres
  induction pres with
  | nil => intro s; rfl
  | cons p rest ih =>
    intro s
    cases rest with
    | nil =>
      have hx := ih (exec s p).1
      simp only [execAll, runBatch]
      exact hx
    | cons q rest2 => simpa [execAll, runBatch] using ih (exec s p).1

theorem runBatch_foldl {σ : Type} (exec : σ → String → σ × QueryResult)
    (main : String) :
    ∀ (pres : List String) (s : σ),
      runBatch exec s pres main =
        exec (List.foldl (fun st q => (exec st q).1) s pres) main := by
  intro pres
  induction pres with
  | nil => intro s; rfl
  | cons p rest ih => intro s; simpa [runBatch, List.foldl] using ih (exec s p).1

theorem braceFree_cons {c : Char} {l : List Char} (h : braceFree (c :: l) = true) :
    ¬(c = '{') ∧ ¬(c = '}') ∧ braceFree l = true := by
  simp only [braceFree, List.all_cons, Bool.and_eq_true, Bool.not_eq_true',
    beq_eq_false_iff_ne, ne_eq] at h
  exact ⟨h.1.1, h.1.2, h.2⟩

theorem subst_scan_characterization (ps : List (String × String)) :
    ∀ (m : ScanMode) (l : List Char), scanOK m l = true →
      ((∀ n ∈ scanHoles m l, (lookupParam ps n).isSome = true) →
         ∃ out, runSubst ps m l = .ok out) ∧
      (∀ n ∈ scanHoles m l, lookupParam ps n = none →
         ∃ nm, runSubst ps m l = .error (.missingParameter nm) ∧
               nm ∈ scanHoles m l ∧ lookupParam ps nm = none) := by
  intro m l
  induction m, l using scanOK.induct with
  | case1 =>
    intro _
    refine ⟨fun _ => ⟨[], rfl⟩, ?_⟩
    intro n hn
    simp [scanHoles] at hn
  | case2 acc =>
    intro h
    simp [scanOK] at h
  | case3 rest ih =>
    intro h
    have h' : scanOK ScanMode.text rest = true := by simpa [scanOK] using h
    obtain ⟨ihA, ihB⟩ := ih h'
    constructor
    · intro hall
      obtain ⟨out, hout⟩ := ihA (by simpa [scanHoles] using hall)
      exact ⟨'{' :: out, by simp [runSubst, hout, Except.map]⟩
    · intro n hn hnone
      obtain ⟨nm, hnm, hmem, hmnone⟩ := ihB n (by simpa [scanHoles] using hn) hnone
      exact ⟨nm, by simp [runSubst, hnm, Except.map],
        by simpa [scanHoles] using hmem, hmnone⟩
  | case4 rest hne ih =>
    intro h
    have h' : scanOK (ScanMode.field []) rest = true := by simpa [scanOK, hne] using h
    obtain ⟨ihA, ihB⟩ := ih h'
    constructor
    · intro hall
      obtain ⟨out, hout⟩ := ihA (by simpa [scanHoles, hne] using hall)
      exact ⟨out, by simpa [runSubst, hne] using hout⟩
    · intro n hn hnone
      obtain ⟨nm, hnm, hmem, hmnone⟩ := ihB n (by simpa [scanHoles, hne] using hn) hnone
      exact ⟨nm, by simpa [runSubst, hne] using hnm,
        by simpa [scanHoles, hne] using hmem, hmnone⟩
  | case5 rest ih =>
    intro h
    have h' : scanOK ScanMode.text rest = true := by simpa [scanOK] using h
    obtain ⟨ihA, ihB⟩ := ih h'
    constructor
    · intro hall
      obtain ⟨out, hout⟩ := ihA (by simpa [scanHoles] using hall)
      exact ⟨'}' :: out, by simp [runSubst, hout, Except.map]⟩
    · intro n hn hnone
      obtain ⟨nm, hnm, hmem, hmnone⟩ := ihB n (by simpa [scanHoles] using hn) hnone
      exact ⟨nm, by simp [runSubst, hnm, Except.map],
        by simpa [scanHoles] using hmem, hmnone⟩
  | case6 tail hne =>
    intro h
    simp [scanOK, hne] at h
  | case7 head rest h1 h2 h3 h4 ih =>
    intro h
    rw [scanOK.eq_7 head rest h1 h2 h3 h4] at h
    obtain ⟨ihA, ihB⟩ := ih h
    constructor
    · intro hall
      rw [scanHoles.eq_7 head rest h1 h2 h3 h4] at hall
      obtain ⟨out, hout⟩ := ihA hall
      refine ⟨head :: out, ?_⟩
      rw [runSubst.eq_7 ps head rest h1 h2 h3 h4, hout]
      rfl
    · intro n hn hnone
      rw [scanHoles.eq_7 head rest h1 h2 h3 h4] at hn
      obtain ⟨nm, hnm, hmem, hmnone⟩ := ihB n hn hnone
      refine ⟨nm, ?_, ?_, hmnone⟩
      · rw [runSubst.eq_7 ps head rest h1 h2 h3 h4, hnm]
        rfl
      · rw [scanHoles.eq_7 head rest h1 h2 h3 h4]
        exact hmem
  | case8 acc rest ih =>
    intro h
    have h' : scanOK ScanMode.text rest = true := by simpa [scanOK] using h
    obtain ⟨ihA, ihB⟩ := ih h'
    cases hc : lookupParam ps (String.mk acc.reverse) with
    | none =>
      constructor
      · intro hall
        exfalso
        have hx := hall (String.mk acc.reverse) (by simp [scanHoles])
        rw [hc] at hx
        simp at hx
      · intro n hn hnone
        refine ⟨String.mk acc.reverse, ?_, by simp [scanHoles], hc⟩
        simp [runSubst, hc]
    | some v =>
      constructor
      · intro hall
        obtain ⟨out, hout⟩ := ihA (fun n hn => hall n (by simp [scanHoles, hn]))
        exact ⟨v.data ++ out, by simp [runSubst, hc, hout, Except.map]⟩
      · intro n hn hnone
        have hn' : n ∈ scanHoles ScanMode.text rest := by
          have hcase : n = String.mk acc.reverse ∨ n ∈ scanHoles ScanMode.text rest := by
            simpa [scanHoles] using hn
          rcases hcase with h1 | h1
          · subst h1
            rw [hc] at hnone
            exact absurd hnone (by simp)
          · exact h1
        obtain ⟨nm, hnm, hmem, hmnone⟩ := ihB n hn' hnone
        exact ⟨nm, by simp [runSubst, hc, hnm, Except.map],
          by simp [scanHoles, hmem], hmnone⟩
  | case9 acc tail =>
    intro h
    simp [scanOK] at h
  | case10 acc c rest hA hB ih =>
    intro h
    rw [scanOK.eq_10 acc c rest hA hB] at h
    obtain ⟨ihA, ihB⟩ := ih h
    constructor
    · intro hall
      rw [scanHoles.eq_10 acc c rest hA hB] at hall
      obtain ⟨out, hout⟩ := ihA hall
      refine ⟨out, ?_⟩
      rw [runSubst.eq_10 ps acc c rest hA hB]
      exact hout
    · intro n hn hnone
      rw [scanHoles.eq_10 acc c rest hA hB] at hn
      obtain ⟨nm, hnm, hmem, hmnone⟩ := ihB n hn hnone
      refine ⟨nm, ?_, ?_, hmnone⟩
      · rw [runSubst.eq_10 ps acc c rest hA hB]
        exact hnm
      · rw [scanHoles.eq_10 acc c rest hA hB]
        exact hmem

theorem runSubst_literal (ps : List (String × String)) :
    ∀ l : List Char, braceFree l = true → runSubst ps ScanMode.text l = .ok l := by
  intro l
  induction l with
  | nil => intro _; rfl
  | cons c rest ih =>
    intro h
    obtain ⟨hc1, hc2, hrest⟩ := braceFree_cons h
    rw [runSubst.eq_7 ps c rest (fun _ hx _ => hc1 hx) (fun hx => hc1 hx)
      (fun _ hx _ => hc2 hx) (fun hx => hc2 hx), ih hrest]
    rfl

theorem runSubst_field_name (ps : List (String × String)) (post : List Char) :
    ∀ (nm acc : List Char), braceFree nm = true →
      runSubst ps (ScanMode.field acc) (nm ++ '}' :: post) =
        match lookupParam ps (String.mk (acc.reverse ++ nm)) with
        | none => .error (.missingParameter (String.mk (acc.reverse ++ nm)))
        | some v => Except.map (fun t => v.data ++ t) (runSubst ps ScanMode.text post) := by
  intro nm
  induction nm with
  | nil =>
    intro acc _
    rw [List.nil_append]
    cases hc : lookupParam ps (String.mk acc.reverse) with
    | none => simp [runSubst, hc]
    | some v => simp [runSubst, hc]
  | cons c nm' ih =>
    intro acc h
    obtain ⟨hc1, hc2, hrest⟩ := braceFree_cons h
    rw [List.cons_append, runSubst.eq_10 ps acc c (nm' ++ '}' :: post)
      (fun hx => hc2 hx) (fun hx => hc1 hx), ih (c :: acc) hrest]
    simp [List.reverse_cons, List.append_assoc]

theorem runSubst_substitutes (ps : List (String × String)) (post : List Char)
    (name v : String) (hn : braceFree name.data = true)
    (hv : lookupParam ps name = some v) :
    ∀ pre : List Char, braceFree pre = true →
      runSubst ps ScanMode.text (pre ++ '{' :: (name.data ++ '}' :: post)) =
        Except.map (fun t => pre ++ (v.data ++ t)) (runSubst ps ScanMode.text post) := by
  intro pre
  induction pre with
  | nil =>
    intro _
    rw [List.nil_append]
    have hne : ∀ r : List Char, name.data ++ '}' :: post = '{' :: r → False := by
      intro r hr
      cases hd : name.data with
      | nil =>
        rw [hd, List.nil_append] at hr
        simp at hr
      | cons d nd =>
        rw [hd, List.cons_append] at hr
        have hd1 : ¬(d = '{') := by
          have hx : braceFree (d :: nd) = true := by rw [hd] at hn; exact hn
          exact (braceFree_cons hx).1
        exact hd1 (List.head_eq_of_cons_eq hr)
    rw [runSubst.eq_4 ps (name.data ++ '}' :: post) hne,
      runSubst_field_name ps post name.data [] hn]
    simp only [List.reverse_nil, List.nil_append]
    rw [show String.mk name.data = name from rfl, hv]
  | cons c pre' ih =>
    intro h
    obtain ⟨hc1, hc2, hrest⟩ := braceFree_cons h
    rw [List.cons_append, runSubst.eq_7 ps c (pre' ++ '{' :: (name.data ++ '}' :: post))
      (fun _ hx _ => hc1 hx) (fun hx => hc1 hx) (fun _ hx _ => hc2 hx) (fun hx => hc2 hx),
      ih hrest]
    cases runSubst ps ScanMode.text post with
    | error e => rfl
    | ok t => rfl

/-- C1: for inputs whose union count does not exceed the sum of the two set
counts (the situation guaranteed when all three counts are measured over
identical base filters), `pairwise_overlap` returns the inclusion-exclusion
intersection size `count_a + count_b - count_union`. -/
theorem pairwise_overlap_inclusion_exclusion (a b u : Int) (h : u ≤ a + b) :
    pairwise_overlap a b u = .ok (a + b - u) := by
  unfold pairwise_overlap
  rw [if_neg]
  omega

theorem pairwise_overlap_inclusion_exclusion_witness :
    (1365092 : Int) ≤ 731900 + 776401 ∧
      pairwise_overlap 731900 776401 1365092 = .ok (731900 + 776401 - 1365092) :=
  ⟨by norm_num, pairwise_overlap_inclusion_exclusion 731900 776401 1365092 (by norm_num)⟩

/-- C2: `pairwise_overlap` raises `InvalidOverlapError` exactly when
`a + b < union`, and on every other input it returns the (non-negative)
difference rather than raising. -/
theorem pairwise_overlap_error_characterization (a b u : Int) :
    (pairwise_overlap a b u = .error .invalidOverlap ↔ a + b < u) ∧
    (pairwise_overlap a b u = .ok (a + b - u) ↔ u ≤ a + b) := by
  unfold pairwise_overlap
  constructor
  · constructor
    · intro h
      by_contra hc
      rw [if_neg (by omega)] at h
      exact Except.noConfusion h
    · intro h
      rw [if_pos (by omega)]
  · constructor
    · intro h
      by_contra hc
      rw [if_pos (by omega)] at h
      exact Except.noConfusion h
    · intro h
      rw [if_neg (by omega)]

/-- C6: `pairwise_overlap` is commutative in its first two arguments,
including agreement on whether the error is raised. -/
theorem pairwise_overlap_comm (a b u : Int) :
    pairwise_overlap a b u = pairwise_overlap b a u := by
  unfold pairwise_overlap
  rw [Int.add_comm]

/-- C8: on the recorded counts (non-English 731900, English 776401, union
1365092) `pairwise_overlap` returns exactly 143209, and the notebook's inline
series computation over the recorded result frames produces the same value
recorded in the source analysis. -/
theorem pairwise_overlap_recorded_counts :
    pairwise_overlap 731900 776401 1365092 = .ok 143209 ∧
    overlapSeries nonenglish_caption_filecount english_caption_filecount
        all_caption_filecount = [Value.int 143209] := by
  constructor
  · rfl
  · rfl

/-- C9 counterexample: the source's aggregation over result frames — the
pandas series arithmetic of the inclusion-exclusion cell — applied to a
zero-row scalar-count result silently evaluates to the empty series. It is a
total computation with no error channel, so it does not fail with an error
such as `NoResultRowError`, contrary to the claim. -/
theorem zero_row_aggregation_silent_empty :
    overlapSeries emptyNumPagesResult emptyNumPagesResult emptyNumPagesResult =
      ([] : List Value) := rfl

/-- C9 amended: a `QueryResult` with zero rows is a well-formed value and is
delivered as a success (not as any backend error), but the source's
scalar-count aggregation applied to it silently produces the empty series
rather than failing with a clear error. -/
theorem zero_row_result_valid_but_silent :
    wellFormedResult emptyNumPagesResult = true ∧
    (Except.ok emptyNumPagesResult : Except BackendError QueryResult).isOk = true ∧
    overlapSeries emptyNumPagesResult emptyNumPagesResult emptyNumPagesResult =
      ([] : List Value) :=
  ⟨rfl, rfl, rfl⟩

/-- C10 counterexample: the event-comment predicate is not the same across the
three caption count queries — the non-English query anchors the comment match
with a trailing colon while the English and all-captions queries do not — so
the three counts are not computed over identical base filters as the claim
states. -/
theorem caption_query_comment_filters_differ :
    eventCommentClauses nonenglish_caption_count_query =
      ["AND event_comment REGEXP \"^...wbsetlabel-add:\""] ∧
    eventCommentClauses english_caption_count_query =
      ["AND event_comment REGEXP \"^...wbsetlabel-add\""] ∧
    eventCommentClauses all_caption_count_query =
      ["AND event_comment REGEXP \"^...wbsetlabel-add\""] ∧
    (("AND event_comment REGEXP \"^...wbsetlabel-add:\"" : String) ==
      "AND event_comment REGEXP \"^...wbsetlabel-add\"") = false := by
  refine ⟨by decide, by decide, by decide, by decide⟩

/-- C10 amended: the three caption count queries share verbatim the same
snapshot, wiki, event-entity, event-type, date-range, page-deletion and
namespace filters, and differ in the language predicate and additionally in
the event-comment predicate (the non-English query requires the comment to
match `^...wbsetlabel-add:` with a trailing colon, the other two
`^...wbsetlabel-add` without it). -/
theorem caption_query_decomposition :
    nonenglish_caption_count_query =
      captionCountBaseFilters ++ labelAddCommentFilterColon ++ nonenglishLanguageFilter ∧
    english_caption_count_query =
      captionCountBaseFilters ++ labelAddCommentFilterPlain ++ englishLanguageFilter ∧
    all_caption_count_query =
      captionCountBaseFilters ++ labelAddCommentFilterPlain ∧
    (labelAddCommentFilterColon == labelAddCommentFilterPlain) = false := by
  refine ⟨by decide, by decide, by decide, by decide⟩

/-- C7: binding `template_count_query` with `template_title = "Information"`
and running it against the backend fixture fixed to the recorded source run
returns one row whose single column holds 51836906; however, the recorded
result names that column `count(DISTINCT tl_from)`, not `num_files`, even
though the query text itself aliases the count `AS num_files` — the recorded
output contradicts the query's own alias, and the claim's expected row
`{"num_files": 51836906}` does not match the recorded fixture. -/
theorem template_count_information_recorded_run :
    pyFormat template_count_query [("template_title", "Information")] =
      .ok informationBoundSql ∧
    mariadbFixture informationBoundSql "commonswiki" =
      some informationTemplateCountRecorded ∧
    columnValues informationTemplateCountRecorded "count(DISTINCT tl_from)" =
      [Value.int 51836906] ∧
    (informationTemplateCountRecorded.columns == ["num_files"]) = false ∧
    (linesOf template_count_query).get? 1 =
      some "SELECT count(DISTINCT tl_from) AS num_files" := by
  refine ⟨rfl, by decide, by decide, by decide, by decide⟩

/-- C3: for every well-formed template, binding succeeds exactly when the
parameter mapping covers every placeholder referenced in the template text;
whenever some referenced placeholder lacks a supplied value, binding fails
with `MissingParameterError` identifying a referenced placeholder that lacks
a value. -/
theorem bind_missing_parameter_characterization :
    ∀ (tpl : String) (ps : List (String × String)),
      wellFormedTemplate tpl = true →
      ((∀ n ∈ placeholders tpl, (lookupParam ps n).isSome = true) →
         ∃ out, pyFormat tpl ps = .ok out) ∧
      (∀ n ∈ placeholders tpl, lookupParam ps n = none →
         ∃ m, pyFormat tpl ps = .error (.missingParameter m) ∧
              m ∈ placeholders tpl ∧ lookupParam ps m = none) := by
  intro tpl ps h
  obtain ⟨hA, hB⟩ := subst_scan_characterization ps ScanMode.text tpl.data h
  constructor
  · intro hall
    obtain ⟨out, hout⟩ := hA hall
    exact ⟨String.mk out, by simp [pyFormat, hout, Except.map]⟩
  · intro n hn hnone
    obtain ⟨nm, hnm, hmem, hmnone⟩ := hB n hn hnone
    exact ⟨nm, by simp [pyFormat, hnm, Except.map], hmem, hmnone⟩

theorem bind_missing_parameter_witness :
    (∃ out, pyFormat claim_query claimParams = .ok out) ∧
    (∃ m, pyFormat claim_query partialClaimParams = .error (.missingParameter m) ∧
          m ∈ placeholders claim_query ∧ lookupParam partialClaimParams m = none) ∧
    pyFormat claim_query partialClaimParams = .error (.missingParameter "end_date") :=
  ⟨(bind_missing_parameter_characterization claim_query claimParams (by decide)).1
      (by decide),
   (bind_missing_parameter_characterization claim_query partialClaimParams
      (by decide)).2 "end_date" (by decide) (by decide),
   rfl⟩

/-- C5: template filling is a single left-to-right pass — a run of text
containing no braces passes through unchanged, and a `{name}`-style
placeholder preceded by brace-free text is replaced by the parameter value
spliced in verbatim (for an arbitrary value, so a value containing
placeholder-shaped text is not re-expanded: there is no nested-template
expansion), after which the pass continues on the remaining text. -/
theorem template_fill_single_pass :
    (∀ (ps : List (String × String)) (l : List Char), braceFree l = true →
       runSubst ps ScanMode.text l = .ok l) ∧
    (∀ (ps : List (String × String)) (pre : List Char) (name : String)
       (post : List Char) (v : String), braceFree name.data = true →
       lookupParam ps name = some v → braceFree pre = true →
       runSubst ps ScanMode.text (pre ++ '{' :: (name.data ++ '}' :: post)) =
         Except.map (fun t => pre ++ (v.data ++ t)) (runSubst ps ScanMode.text post)) :=
  ⟨runSubst_literal,
   fun ps pre name post v hn hv hpre => runSubst_substitutes ps post name v hn hv pre hpre⟩

theorem template_fill_single_pass_witness :
    runSubst [("template_title", "{nested}")] ScanMode.text
        ("AND tl_title = ".data ++ '{' :: ("template_title".data ++ '}' :: " -- t".data)) =
      Except.map (fun t => "AND tl_title = ".data ++ ("{nested}".data ++ t))
        (runSubst [("template_title", "{nested}")] ScanMode.text " -- t".data) ∧
    runSubst [("template_title", "{nested}")] ScanMode.text " -- t".data =
      .ok " -- t".data :=
  ⟨template_fill_single_pass.2 [("template_title", "{nested}")] "AND tl_title = ".data
      "template_title" " -- t".data "{nested}" (by decide) (by decide) (by decide),
   template_fill_single_pass.1 [("template_title", "{nested}")] " -- t".data (by decide)⟩

/-- C4: running a bound query with a non-empty list of pre-statements against
the batch backend executes the pre-statements in the given order (threading
only the backend state, so their results are discarded), then executes the
main query in the resulting state, and the result handed back — also by the
list-form `hive.run`-style entry point — is exactly the main statement's
result. -/
theorem batch_pre_statements_semantics (σ : Type)
    (exec : σ → String → σ × QueryResult) (s : σ) (p main : String)
    (pres : List String) :
    execAll exec s ((p :: pres) ++ [main]) =
      some (runBatch exec s (p :: pres) main) ∧
    runBatch exec s (p :: pres) main =
      exec (List.foldl (fun st q => (exec st q).1) s (p :: pres)) main :=
  ⟨execAll_append_last exec main (p :: pres) s, runBatch_foldl exec main (p :: pres) s⟩
